import Mathlib

/-!
Verification of the GRMHD flux pipeline and conserved-to-primitive recovery
engine of AthenaK (files `src/eos/primitive_solver_hyd.hpp`,
`src/dyngr/dyngr_fluxes.cpp`, `src/hydro/hydro.cpp`).

The embedding is shallow: `Real` is modelled by `ℚ`; every external policy
routine (the equation-of-state calls, the nonlinear root-finder
`ps.ConToPrim`, `ps.PrimToCon`, the library `sqrt`, `SpatialInv`) is an
uninterpreted oracle passed as a parameter, so the theorems are about the
data and control flow of the kernels that live in the repository sources.
Per-cell kernels are embedded as pure functions from the cell's view of the
grid arrays to the updated view.
-/

namespace AthenaK

/-- Error codes of the primitive solver, from the `Primitive::Error` values
enumerated in `ErrorToString` (primitive_solver_hyd.hpp, lines 534-563). -/
inductive PrimError where
  | SUCCESS
  | RHO_TOO_BIG
  | RHO_TOO_SMALL
  | NANS_IN_CONS
  | MAG_TOO_BIG
  | BRACKETING_FAILED
  | NO_SOLUTION
  | OTHER
  deriving DecidableEq, Repr

/-- The `Primitive::SolverResult` record filled by the excision branch and by
`ps.ConToPrim` (primitive_solver_hyd.hpp, lines 357, 371-375). -/
structure SolverResult where
  error : PrimError
  iterations : ℤ
  cons_floor : Bool
  prim_floor : Bool
  cons_adjusted : Bool
  deriving DecidableEq, Repr

/-- The point primitive state `prim_pt[NPRIM]`: indices PRH, PVX, PVY, PVZ,
PPR, PTM and the passive scalars PYF+n. -/
structure PrimPt where
  rh : ℚ
  vx : ℚ
  vy : ℚ
  vz : ℚ
  pr : ℚ
  tm : ℚ
  yf : List ℚ
  deriving DecidableEq, Repr

/-- The point conserved state `cons_pt[NCONS]`: indices CDN, CSX, CSY, CSZ,
CTA and the scalar densities CYD+n. -/
structure ConsPt where
  dn : ℚ
  sx : ℚ
  sy : ℚ
  sz : ℚ
  ta : ℚ
  yd : List ℚ
  deriving DecidableEq, Repr

/-- The six independent components of the symmetric spatial 3-metric
`g3d[NSPMETRIC]` (indices S11, S12, S13, S22, S23, S33). -/
structure Metric3 where
  s11 : ℚ
  s12 : ℚ
  s13 : ℚ
  s22 : ℚ
  s23 : ℚ
  s33 : ℚ
  deriving DecidableEq, Repr

/-- Modelled from the spec: `Primitive::GetDeterminant` lives in the
primitive-solver library, which is not among the provided sources; the spec's
data model names "the spatial metric ... its determinant", which is the
standard determinant of the symmetric 3x3 matrix. -/
def getDeterminant (g : Metric3) : ℚ :=
  g.s11 * (g.s22 * g.s33 - g.s23 * g.s23)
    - g.s12 * (g.s12 * g.s33 - g.s13 * g.s23)
    + g.s13 * (g.s12 * g.s23 - g.s13 * g.s22)

/-- Modelled from the spec: `Primitive::SquareVector` is part of the
primitive-solver library, not among the provided sources; it is the squared
norm g_ij u^i u^j of a spatial vector in the spatial metric. -/
def squareVector (u : ℚ × ℚ × ℚ) (g : Metric3) : ℚ :=
  g.s11 * u.1 * u.1 + g.s22 * u.2.1 * u.2.1 + g.s33 * u.2.2 * u.2.2
    + 2 * (g.s12 * u.1 * u.2.1 + g.s13 * u.1 * u.2.2 + g.s23 * u.2.1 * u.2.2)

/-- The view a single cell (m,k,j,i) has of the grid arrays touched by
`ConsToPrim` and `PrimToCons`: the conserved array `cons`, the primitive
array `prim`, the cell-centered field `bcc0` and the FOFC mask `fofc`. -/
structure Cell where
  consD : ℚ
  consSx : ℚ
  consSy : ℚ
  consSz : ℚ
  consE : ℚ
  consY : List ℚ
  primD : ℚ
  primVx : ℚ
  primVy : ℚ
  primVz : ℚ
  primP : ℚ
  primY : List ℚ
  bccX : ℚ
  bccY : ℚ
  bccZ : ℚ
  fofc : Bool
  deriving DecidableEq, Repr

/-- The six face-centered field values adjacent to one cell:
`bfc.x1f(m,k,j,i)`, `bfc.x1f(m,k,j,i+1)`, `bfc.x2f(m,k,j,i)`,
`bfc.x2f(m,k,j+1,i)`, `bfc.x3f(m,k,j,i)`, `bfc.x3f(m,k+1,j,i)`. -/
structure FaceB where
  x1l : ℚ
  x1r : ℚ
  x2l : ℚ
  x2r : ℚ
  x3l : ℚ
  x3r : ℚ
  deriving DecidableEq, Repr

/-- Oracles for the external routines the kernels call: the equation of
state (`GetBaryonMass`, `GetTemperatureFromP`, `ApplyPrimitiveFloor`),
`ps.PrimToCon`, the C library `sqrt` and `SpatialInv`.  None of these is
defined in the provided sources; the kernels only route data through them. -/
structure PSOracle where
  mb : ℚ
  getTemperatureFromP : ℚ → ℚ → List ℚ → ℚ
  applyPrimitiveFloor : PrimPt → Bool × PrimPt
  primToCon : PrimPt → ℚ × ℚ × ℚ → Metric3 → ConsPt
  sqrt : ℚ → ℚ
  spatialInv : ℚ → Metric3 → Metric3

/-- The type of the root-finder oracle `ps.ConToPrim(prim_pt, cons_pt, b3u,
g3d, g3u)`: it fills `prim_pt`, may adjust `cons_pt`, and reports a
`SolverResult`. -/
def SolveFn : Type :=
  ConsPt → ℚ × ℚ × ℚ → Metric3 → Metric3 → SolverResult × PrimPt × ConsPt

end AthenaK

namespace AthenaK

/-- Variable index IDN of the mass density / mass flux (athena.hpp). -/
def IDN : ℕ := 0

/-- The passive-scalar flux post-step executed after each Riemann solve
(dyngr_fluxes.cpp, lines 164-176, 293-304, 417-428): at one face, for each
variable index n, if n is a scalar index (nhyd ≤ n < nvars) the flux is
upwinded from the mass flux `flx(IDN)`; other entries are untouched. -/
def scalarFluxUpdate (nhyd nvars : ℕ) (wl wr : ℕ → ℚ) (flx : ℕ → ℚ) : ℕ → ℚ :=
  fun n =>
    if nhyd ≤ n ∧ n < nvars then
      if 0 ≤ flx IDN then flx IDN * wl n else flx IDN * wr n
    else flx n

/-- Task status returned by `CalcFluxes` (the only value it produces is
`TaskStatus::complete`, dyngr_fluxes.cpp line 440). -/
inductive TaskStatus where
  | complete
  | incomplete
  deriving DecidableEq, Repr

/-- The tail of `CalcFluxes` after all sweep directions (dyngr_fluxes.cpp,
lines 435-440): the first component records whether `FOFC(pdriver, stage)`
is invoked, which happens iff `pmhd->use_fofc || coord_data.bh_excise`; the
second is the returned status. -/
def calcFluxesFinish (useFofc bhExcise : Bool) : Bool × TaskStatus :=
  (if useFofc || bhExcise then true else false, TaskStatus.complete)

/-- Extraction of the undensitized point conserved state from the grid
(`ConsToPrim`, primitive_solver_hyd.hpp lines 328-337): every component of
`cons` at the cell is multiplied by `isdetg = 1/sqrt(detg)`. -/
def c2pExtract (o : PSOracle) (g3d : Metric3) (c : Cell) : ConsPt :=
  let isdetg := 1 / o.sqrt (getDeterminant g3d)
  { dn := c.consD * isdetg
    sx := c.consSx * isdetg
    sy := c.consSy * isdetg
    sz := c.consSz * isdetg
    ta := c.consE * isdetg
    yd := c.consY.map (· * isdetg) }

/-- The cell-centered field step of `ConsToPrim` (primitive_solver_hyd.hpp
lines 338-354): in `floors_only` mode the stored `bcc0` values are read and
undensitized; otherwise `bcc0` is first overwritten with the average of the
two adjacent face-centered values in each direction and that value is
undensitized.  Returns (new `bcc0` values, undensitized `b3u`). -/
def c2pB (o : PSOracle) (floorsOnly : Bool) (g3d : Metric3) (fb : FaceB)
    (c : Cell) : (ℚ × ℚ × ℚ) × (ℚ × ℚ × ℚ) :=
  let isdetg := 1 / o.sqrt (getDeterminant g3d)
  if floorsOnly then
    ((c.bccX, c.bccY, c.bccZ), (c.bccX * isdetg, c.bccY * isdetg, c.bccZ * isdetg))
  else
    let bx := (1/2 : ℚ) * (fb.x1l + fb.x1r)
    let bY := (1/2 : ℚ) * (fb.x2l + fb.x2r)
    let bz := (1/2 : ℚ) * (fb.x3l + fb.x3r)
    ((bx, bY, bz), (bx * isdetg, bY * isdetg, bz * isdetg))

/-- The solve step of `ConsToPrim` (primitive_solver_hyd.hpp lines 356-384):
if the global excision flag is set and the cell's excision mask is set, the
root-finder is skipped — the primitives are set to the configured defaults
(`dexcise/mb`, zero velocity, `pexcise`, scalar fractions `CYD/CDN`), the
result is marked `SUCCESS` with `cons_adjusted = true`, and the conserved
state is recomputed with `ps.PrimToCon`; otherwise `ps.ConToPrim` runs. -/
def c2pSolve (o : PSOracle) (solve : SolveFn) (excise mask : Bool)
    (dexcise pexcise : ℚ) (g3d g3u : Metric3) (b3u : ℚ × ℚ × ℚ)
    (cons_pt : ConsPt) : SolverResult × PrimPt × ConsPt :=
  if excise then
    if mask then
      let rh := dexcise / o.mb
      let yf := List.replicate cons_pt.yd.length (cons_pt.yd.headD 0 / cons_pt.dn)
      let tm := o.getTemperatureFromP rh pexcise yf
      let p : PrimPt := { rh := rh, vx := 0, vy := 0, vz := 0,
                          pr := pexcise, tm := tm, yf := yf }
      let r : SolverResult := { error := PrimError.SUCCESS, iterations := 0,
                                cons_floor := false, prim_floor := false,
                                cons_adjusted := true }
      (r, p, o.primToCon p b3u g3d)
    else solve cons_pt b3u g3d g3u
  else solve cons_pt b3u g3d g3u

/-- The per-cell body of `ConsToPrim` (primitive_solver_hyd.hpp lines
306-443), as a function from the cell's grid view to the updated view and
the contribution this cell makes to the failure reduction `sumd`.  On a
failed solve in `floors_only` mode the cell is flagged for FOFC and counted;
otherwise the recovered primitives are copied back — except the passive
scalars, whose copy-back loop (line 427) contains only the expression
`prim(m, nhyd+n, k, j, i);`, a read with no store, so `primY` is left
unchanged — and, when the solver floored or adjusted the conserved state,
the redensitized conserved variables are written back. -/
def consToPrimCell (o : PSOracle) (solve : SolveFn) (excise mask : Bool)
    (dexcise pexcise : ℚ) (floorsOnly : Bool) (g3d : Metric3) (fb : FaceB)
    (c : Cell) : Cell × ℕ :=
  let detg := getDeterminant g3d
  let sdetg := o.sqrt detg
  let g3u := o.spatialInv (1 / detg) g3d
  let cons_pt := c2pExtract o g3d c
  let bb := c2pB o floorsOnly g3d fb c
  let c1 := { c with bccX := bb.1.1, bccY := bb.1.2.1, bccZ := bb.1.2.2 }
  let rpc := c2pSolve o solve excise mask dexcise pexcise g3d g3u bb.2 cons_pt
  let r := rpc.1
  let p := rpc.2.1
  let cons2 := rpc.2.2
  if r.error ≠ PrimError.SUCCESS ∧ floorsOnly then
    ({ c1 with fofc := true }, 1)
  else
    let c2 := { c1 with primD := p.rh * o.mb, primVx := p.vx, primVy := p.vy,
                        primVz := p.vz, primP := p.pr }
    let c3 :=
      if r.cons_floor || r.cons_adjusted then
        { c2 with consD := cons2.dn * sdetg, consSx := cons2.sx * sdetg,
                  consSy := cons2.sy * sdetg, consSz := cons2.sz * sdetg,
                  consE := cons2.ta * sdetg, consY := cons2.yd.map (· * sdetg) }
      else c2
    (c3, 0)

/-- The per-cell body of `PrimToCons` (primitive_solver_hyd.hpp lines
189-259): extract and undensitize the fields, apply the primitive floor,
convert with `ps.PrimToCon`, store the redensitized conserved variables, and
copy the floored primitives back only when the floor fired. -/
def primToConsCell (o : PSOracle) (g3d : Metric3) (c : Cell) : Cell :=
  let sdetg := o.sqrt (getDeterminant g3d)
  let b := (c.bccX / sdetg, c.bccY / sdetg, c.bccZ / sdetg)
  let rh := c.primD / o.mb
  let tm := o.getTemperatureFromP rh c.primP c.primY
  let fp := o.applyPrimitiveFloor
    { rh := rh, vx := c.primVx, vy := c.primVy, vz := c.primVz,
      pr := c.primP, tm := tm, yf := c.primY }
  let p := fp.2
  let cons_pt := o.primToCon p b g3d
  let c1 := { c with consD := cons_pt.dn * sdetg, consSx := cons_pt.sx * sdetg,
                     consSy := cons_pt.sy * sdetg, consSz := cons_pt.sz * sdetg,
                     consE := cons_pt.ta * sdetg,
                     consY := cons_pt.yd.map (· * sdetg) }
  if fp.1 then
    { c1 with primD := p.rh * o.mb, primVx := p.vx, primVy := p.vy,
              primVz := p.vz, primP := p.pr, primY := p.yf }
  else c1

/-- The per-policy-object floor-failure flags of the error policy, read and
written through `IsPrimitiveFlooringFailure`, `IsConservedFlooringFailure`,
`SetPrimitiveFloorFailure`, `SetConservedFloorFailure`. -/
structure EosFloorFlags where
  primFloorFailure : Bool
  consFloorFailure : Bool
  deriving DecidableEq, Repr

/-- The flag values the policy object holds during the parallel pass of
`ConsToPrim` (primitive_solver_hyd.hpp lines 296-302): in `floors_only` mode
both failure flags are set to true before the pass. -/
def c2pFlagsDuringPass (floorsOnly : Bool) (flags : EosFloorFlags) : EosFloorFlags :=
  if floorsOnly then { primFloorFailure := true, consFloorFailure := true } else flags

/-- One cell's inputs in a batch `ConsToPrim` call: its excision mask value,
metric, adjacent face fields and grid view. -/
structure CellJob where
  mask : Bool
  g3d : Metric3
  fb : FaceB
  cell : Cell

/-- The sequential driver of `ConsToPrim` (primitive_solver_hyd.hpp lines
293-449) around the parallel per-cell pass: in `floors_only` mode it saves
the policy's floor-failure flags and sets them both to true before the pass,
restores them afterwards, and adds the reduced failure count to the mesh
counter `ecounter.nfofc`.  The kernel body itself neither receives nor
returns the flags.  Returns (flags after the call, `nfofc` after the call,
per-cell results). -/
def consToPrimDriver (o : PSOracle) (solve : SolveFn) (excise : Bool)
    (dexcise pexcise : ℚ) (floorsOnly : Bool) (flags : EosFloorFlags)
    (nfofc : ℕ) (jobs : List CellJob) :
    EosFloorFlags × ℕ × List (Cell × ℕ) :=
  let saved := flags
  let during := c2pFlagsDuringPass floorsOnly flags
  let results := jobs.map fun jb =>
    consToPrimCell o solve excise jb.mask dexcise pexcise floorsOnly jb.g3d jb.fb jb.cell
  let nfloord := (results.map Prod.snd).sum
  let flagsOut := if floorsOnly then saved else during
  let nfofcOut := if floorsOnly then nfofc + nfloord else nfofc
  (flagsOut, nfofcOut, results)

/-- Component selection `uu[index]` for `index = pvx - PVX`. -/
def vecIdx (v : ℚ × ℚ × ℚ) : Fin 3 → ℚ
  | 0 => v.1
  | 1 => v.2.1
  | 2 => v.2.2

/-- The discriminant `dis` of `GetGRSoundSpeeds` (primitive_solver_hyd.hpp
lines 456-470), with `cs` standing for the equation-of-state call
`GetSoundSpeed` and `sqrtO` for the C library `sqrt` (used for the Lorentz
factor `iW`). -/
def soundSpeedDis (sqrtO : ℚ → ℚ) (cs : ℚ) (p : PrimPt) (g3d : Metric3)
    (gii : ℚ) (index : Fin 3) : ℚ :=
  let uu := (p.vx, p.vy, p.vz)
  let usq := squareVector uu g3d
  let iWsq := 1 / (1 + usq)
  let iW := sqrtO iWsq
  let vsq := usq * iWsq
  let vui := vecIdx uu index * iW
  let csq := cs * cs
  let iWsq_ad := 1 - vsq * csq
  (csq * iWsq) * (gii * iWsq_ad - vui * vui * (1 - csq))

/-- `GetGRSoundSpeeds` (primitive_solver_hyd.hpp lines 453-487).  When the
square root of the discriminant is not finite the routine prints a dump and
calls `exit(EXIT_FAILURE)`, modelled as `none`; over the rationals the
square root of the discriminant fails to be finite exactly when the
discriminant is negative.  Otherwise the transformed characteristic speeds
are returned. -/
def gRSoundSpeeds (sqrtO : ℚ → ℚ) (cs : ℚ) (p : PrimPt) (g3d : Metric3)
    (beta_u : Fin 3 → ℚ) (alpha gii : ℚ) (index : Fin 3) : Option (ℚ × ℚ) :=
  let uu := (p.vx, p.vy, p.vz)
  let usq := squareVector uu g3d
  let iWsq := 1 / (1 + usq)
  let iW := sqrtO iWsq
  let vsq := usq * iWsq
  let vui := vecIdx uu index * iW
  let csq := cs * cs
  let iWsq_ad := 1 - vsq * csq
  let dis := soundSpeedDis sqrtO cs p g3d gii index
  if dis < 0 then none
  else
    let sdis := sqrtO dis
    some (alpha * (vui * (1 - csq) + sdis) / iWsq_ad - beta_u index,
          alpha * (vui * (1 - csq) - sdis) / iWsq_ad - beta_u index)

/-- `GetGRFastMagnetosonicSpeeds` (primitive_solver_hyd.hpp lines 490-532):
the same structure, but on a non-finite square root it only prints — the
`exit(EXIT_FAILURE)` is commented out — so the routine always returns the
pair of transformed speeds.  `cs` and `enth` stand for the equation-of-state
calls `GetSoundSpeed` and `GetEnthalpy`. -/
def gRFastMagnetosonicSpeeds (sqrtO : ℚ → ℚ) (cs enth bsq : ℚ) (p : PrimPt)
    (g3d : Metric3) (beta_u : Fin 3 → ℚ) (alpha gii : ℚ) (index : Fin 3)
    (mbq : ℚ) : ℚ × ℚ :=
  let uu := (p.vx, p.vy, p.vz)
  let usq := squareVector uu g3d
  let iWsq := 1 / (1 + usq)
  let iW := sqrtO iWsq
  let vsq := usq * iWsq
  let vu := vecIdx uu index * iW
  let csq := cs * cs
  let H := mbq * p.rh * enth
  let vasq := bsq / (bsq + H)
  let cmsq := csq + vasq - csq * vasq
  let iWsq_ad := 1 - vsq * cmsq
  let dis := (cmsq * iWsq) * (gii * iWsq_ad - vu * vu * (1 - cmsq))
  let sdis := sqrtO dis
  (alpha * (vu * (1 - cmsq) + sdis) / iWsq_ad - beta_u index,
   alpha * (vu * (1 - cmsq) - sdis) / iWsq_ad - beta_u index)

/-- The configuration-time equation-of-state selection of the `Hydro`
constructor (hydro.cpp lines 27-39): "adiabatic" and "isothermal" select an
EOS and set `nhydro`; any other string reports a fatal error and calls
`std::exit(EXIT_FAILURE)`, modelled as `none`. -/
def hydroEosNhydro (eqnOfState : String) : Option ℕ :=
  if eqnOfState = "adiabatic" then some 5
  else if eqnOfState = "isothermal" then some 4
  else none

end AthenaK

namespace AthenaK

/-- Which of the two rotating left-state scratch buffers (`scr1`/`scr2` for
the fluid state in the x2 sweep, dyngr_fluxes.cpp lines 218-230) the Riemann
solver reads as `wl` at sweep index j: `scr2` when j is even, `scr1` when j
is odd. -/
def sweepWl {α : Type} (j : ℤ) (s : α × α) : α :=
  if j % 2 = 0 then s.2 else s.1

/-- Writing this iteration's reconstructed left state (`wl_jp1`) into the
scratch pair: into `scr1` when j is even, into `scr2` when j is odd
(dyngr_fluxes.cpp lines 219-230). -/
def sweepWrite {α : Type} (j : ℤ) (v : α) (s : α × α) : α × α :=
  if j % 2 = 0 then (v, s.2) else (s.1, v)

/-- Contents of the scratch pair (`scr1`, `scr2`) after n iterations of the
x2 (or, with k in place of j, x3) sweep loop starting at index jsm1 = js-1
(dyngr_fluxes.cpp lines 217-257): iteration number n works at sweep index
jsm1+n and stores the left interface state produced by the reconstruction
oracle `recon` — `recon j = (qL at face j+1, qR at face j)` — into the
parity-selected buffer. -/
def sweepState {α : Type} (recon : ℤ → α × α) (jsm1 : ℤ) (init : α × α) :
    ℕ → α × α
  | 0 => init
  | n + 1 => sweepWrite (jsm1 + n) (recon (jsm1 + n)).1 (sweepState recon jsm1 init n)

/-- The (left, right) interface states the Riemann solver consumes at
iteration n of the sweep (sweep index j = jsm1 + n, executed only for
n ≥ 1, i.e. j > js-1): `wl` is read from the parity-selected buffer after
this iteration's reconstruction wrote `wl_jp1`, and `wr` is this
iteration's freshly reconstructed right state (dyngr_fluxes.cpp lines
282-291). -/
def sweepSolverInput {α : Type} (recon : ℤ → α × α) (jsm1 : ℤ) (init : α × α)
    (n : ℕ) : α × α :=
  (sweepWl (jsm1 + n) (sweepState recon jsm1 init (n + 1)), (recon (jsm1 + n)).2)

/-- Modelled from the spec: the naive scheme the buffer rotation refines,
which reconstructs both sides of every interface — at face j the left state
is the one reconstruction at index j-1 produces and the right state is the
one reconstruction at index j produces. -/
def naiveSolverInput {α : Type} (recon : ℤ → α × α) (j : ℤ) : α × α :=
  ((recon (j - 1)).1, (recon j).2)

end AthenaK

namespace AthenaK

/-- Flat (identity) spatial metric fixture. -/
def gId : Metric3 := ⟨1, 0, 0, 1, 0, 1⟩

/-- A spatial metric fixture with determinant -1. -/
def gNeg : Metric3 := ⟨-1, 0, 0, 1, 0, 1⟩

/-- Face-centered field fixture. -/
def fbW : FaceB := ⟨2, 4, 6, 8, 10, 12⟩

/-- Cell fixture with one passive scalar. -/
def cellW : Cell :=
  { consD := 3, consSx := 1, consSy := 1, consSz := 1, consE := 9, consY := [5],
    primD := 2, primVx := 0, primVy := 0, primVz := 0, primP := 4, primY := [7],
    bccX := 1, bccY := 1, bccZ := 1, fofc := false }

/-- Oracle fixture whose external routines are trivial total functions. -/
def oW : PSOracle :=
  { mb := 1
    getTemperatureFromP := fun _ _ _ => 0
    applyPrimitiveFloor := fun p => (false, p)
    primToCon := fun p _ _ => ⟨p.rh, p.vx, p.vy, p.vz, p.pr, p.yf⟩
    sqrt := fun _ => 1
    spatialInv := fun _ g => g }

/-- An oracle differing from `oW` only in the square-root routine. -/
def oW2 : PSOracle := { oW with sqrt := fun _ => 2 }

/-- A root-finder fixture that always fails with NO_SOLUTION. -/
def solveFail : SolveFn := fun _ _ _ _ =>
  (⟨PrimError.NO_SOLUTION, 3, false, false, false⟩,
   ⟨0, 0, 0, 0, 0, 0, []⟩, ⟨0, 0, 0, 0, 0, []⟩)

/-- A root-finder fixture that converges to fixed primitives whose passive
scalar fraction is 42, leaving the conserved input untouched. -/
def solveOk : SolveFn := fun cons _ _ _ =>
  (⟨PrimError.SUCCESS, 2, false, false, false⟩, ⟨2, 0, 0, 0, 3, 0, [42]⟩, cons)

/-- A root-finder fixture that converges with `cons_floor` set, requesting a
writeback of a fixed adjusted conserved state of unit density. -/
def solveAdj : SolveFn := fun _ _ _ _ =>
  (⟨PrimError.SUCCESS, 2, true, false, false⟩, ⟨2, 0, 0, 0, 3, 0, []⟩, ⟨1, 0, 0, 0, 0, []⟩)

/-- Primitive point fixture at rest. -/
def pZero : PrimPt := ⟨0, 0, 0, 0, 0, 0, []⟩

/-- A root-finder fixture that agrees with `solveOk` on the magnetic field
value (3, 7, 11) and fails everywhere else. -/
def solveOkAlt : SolveFn := fun cons b g gu =>
  if b = ((3 : ℚ), (7 : ℚ), (11 : ℚ)) then solveOk cons b g gu
  else solveFail cons b g gu

end AthenaK

namespace AthenaK

/-- Claim C3: for every face and every passive scalar, the scalar flux after
the Riemann solve equals the mass flux times the left reconstructed scalar
concentration when the mass flux is positive, times the right one when it is
negative, and is exactly zero when the mass flux is exactly zero, regardless
of the concentrations. -/
theorem scalarFluxUpdate_upwind (nhyd nvars : ℕ) (wl wr flx : ℕ → ℚ) (n : ℕ)
    (hn : nhyd ≤ n) (hn2 : n < nvars) :
    (0 < flx IDN → scalarFluxUpdate nhyd nvars wl wr flx n = flx IDN * wl n) ∧
    (flx IDN < 0 → scalarFluxUpdate nhyd nvars wl wr flx n = flx IDN * wr n) ∧
    (flx IDN = 0 → scalarFluxUpdate nhyd nvars wl wr flx n = 0) := by
  refine ⟨fun hpos => ?_, fun hneg => ?_, fun hz => ?_⟩
  · simp only [scalarFluxUpdate, if_pos (And.intro hn hn2), if_pos hpos.le]
  · simp only [scalarFluxUpdate, if_pos (And.intro hn hn2), if_neg (not_le.mpr hneg)]
  · simp only [scalarFluxUpdate, if_pos (And.intro hn hn2), hz]
    simp

/-- Witness for C3: the upwind property evaluated at concrete faces with
positive, negative and zero mass flux. -/
theorem scalarFluxUpdate_upwind_witness :
    scalarFluxUpdate 5 6 (fun _ => 2) (fun _ => 3) (fun n => if n = 0 then 4 else 9) 5 = 8 ∧
    scalarFluxUpdate 5 6 (fun _ => 2) (fun _ => 3) (fun n => if n = 0 then -4 else 9) 5 = -12 ∧
    scalarFluxUpdate 5 6 (fun _ => 2) (fun _ => 3) (fun n => if n = 0 then 0 else 9) 5 = 0 := by
  refine ⟨?_, ?_, ?_⟩
  · have h := (scalarFluxUpdate_upwind 5 6 (fun _ => 2) (fun _ => 3)
      (fun n => if n = 0 then 4 else 9) 5 (by norm_num) (by norm_num)).1 (by norm_num [IDN])
    rw [h]; norm_num [IDN]
  · have h := (scalarFluxUpdate_upwind 5 6 (fun _ => 2) (fun _ => 3)
      (fun n => if n = 0 then -4 else 9) 5 (by norm_num) (by norm_num)).2.1 (by norm_num [IDN])
    rw [h]; norm_num [IDN]
  · exact (scalarFluxUpdate_upwind 5 6 (fun _ => 2) (fun _ => 3)
      (fun n => if n = 0 then 0 else 9) 5 (by norm_num) (by norm_num)).2.2 (by norm_num [IDN])

/-- Counterexample to claim C6 as stated: the correction pass is driven by
the configuration flag `use_fofc`, not by whether some cell was flagged
during the step; with `use_fofc = true`, no excision and no cell flagged,
the pass is still invoked. -/
theorem calcFluxesFinish_not_flag_driven :
    ¬ ∀ (useFofc bhExcise someCellFlagged : Bool),
        (calcFluxesFinish useFofc bhExcise).1 = (someCellFlagged || bhExcise) := by
  intro h
  have := h true false false
  simp [calcFluxesFinish] at this

/-- Claim C6 (amended): after all active sweep directions, `CalcFluxes`
invokes the first-order flux-correction pass iff the FOFC configuration
option `use_fofc` is enabled or the global excision flag is active, and it
returns `TaskStatus::complete`. -/
theorem calcFluxesFinish_spec (useFofc bhExcise : Bool) :
    ((calcFluxesFinish useFofc bhExcise).1 = true ↔ (useFofc = true ∨ bhExcise = true)) ∧
    (calcFluxesFinish useFofc bhExcise).2 = TaskStatus.complete := by
  cases useFofc <;> cases bhExcise <;> simp [calcFluxesFinish]

/-- On a cell that is not excision-masked (either the global flag or the
cell mask is off), the solve step is just the root-finder call. -/
theorem c2pSolve_not_excised (o : PSOracle) (solve : SolveFn)
    (excise mask : Bool) (dexcise pexcise : ℚ) (g3d g3u : Metric3)
    (b3u : ℚ × ℚ × ℚ) (cons_pt : ConsPt)
    (hne : excise = false ∨ mask = false) :
    c2pSolve o solve excise mask dexcise pexcise g3d g3u b3u cons_pt
      = solve cons_pt b3u g3d g3u := by
  rcases hne with h | h <;> subst h
  · simp [c2pSolve]
  · cases excise <;> simp [c2pSolve]

/-- Claim C1: with the global excision flag active and the cell's excision
mask set, `ConsToPrim` skips the root-finder (the output does not depend on
it), writes exactly the configured default density `dexcise`, zero velocity
and pressure `pexcise` into the primitive array regardless of the conserved
input, contributes nothing to the failure count, and the solver result is
marked `SUCCESS` with `cons_adjusted = true` — adjusted, never failed. -/
theorem consToPrimCell_excision_override (o : PSOracle) (s₁ s₂ : SolveFn)
    (dexcise pexcise : ℚ) (floorsOnly : Bool) (g3d : Metric3) (fb : FaceB)
    (c : Cell) (hmb : o.mb ≠ 0) :
    consToPrimCell o s₁ true true dexcise pexcise floorsOnly g3d fb c =
      consToPrimCell o s₂ true true dexcise pexcise floorsOnly g3d fb c ∧
    (consToPrimCell o s₁ true true dexcise pexcise floorsOnly g3d fb c).1.primD = dexcise ∧
    (consToPrimCell o s₁ true true dexcise pexcise floorsOnly g3d fb c).1.primVx = 0 ∧
    (consToPrimCell o s₁ true true dexcise pexcise floorsOnly g3d fb c).1.primVy = 0 ∧
    (consToPrimCell o s₁ true true dexcise pexcise floorsOnly g3d fb c).1.primVz = 0 ∧
    (consToPrimCell o s₁ true true dexcise pexcise floorsOnly g3d fb c).1.primP = pexcise ∧
    (consToPrimCell o s₁ true true dexcise pexcise floorsOnly g3d fb c).2 = 0 ∧
    (c2pSolve o s₁ true true dexcise pexcise g3d
        (o.spatialInv (1 / getDeterminant g3d) g3d)
        ((c2pB o floorsOnly g3d fb c).2) (c2pExtract o g3d c)).1.error
      = PrimError.SUCCESS ∧
    (c2pSolve o s₁ true true dexcise pexcise g3d
        (o.spatialInv (1 / getDeterminant g3d) g3d)
        ((c2pB o floorsOnly g3d fb c).2) (c2pExtract o g3d c)).1.cons_adjusted
      = true := by
  refine ⟨rfl, ?_, rfl, rfl, rfl, rfl, rfl, rfl, rfl⟩
  exact div_mul_cancel₀ dexcise hmb

/-- Witness for C1: for a concrete excised cell the primitive array receives
the configured defaults (density 11, pressure 13) and the solver result is
`SUCCESS` and adjusted. -/
theorem consToPrimCell_excision_override_witness :
    oW.mb ≠ 0 ∧
    (consToPrimCell oW solveFail true true 11 13 false gId fbW cellW).1.primD = 11 ∧
    (consToPrimCell oW solveFail true true 11 13 false gId fbW cellW).1.primP = 13 ∧
    (c2pSolve oW solveFail true true 11 13 gId
        (oW.spatialInv (1 / getDeterminant gId) gId)
        ((c2pB oW false gId fbW cellW).2) (c2pExtract oW gId cellW)).1.cons_adjusted
      = true :=
  have h := consToPrimCell_excision_override oW solveFail solveOk 11 13 false gId fbW cellW
    (by norm_num [oW])
  ⟨by norm_num [oW], h.2.1, h.2.2.2.2.2.1, h.2.2.2.2.2.2.2.2⟩

/-- Claim C2: in a `floors_only` call, on a non-excised cell where the
root-finder reports an error, the cell is flagged for first-order flux
correction, exactly one is contributed to the failure reduction, and every
other field of the cell's grid view — conserved, primitive and
cell-centered magnetic arrays — is left unchanged. -/
theorem consToPrimCell_floorsOnly_failure (o : PSOracle) (solve : SolveFn)
    (excise mask : Bool) (dexcise pexcise : ℚ) (g3d : Metric3) (fb : FaceB)
    (c : Cell) (_hne : excise = false ∨ mask = false)
    (herr : (c2pSolve o solve excise mask dexcise pexcise g3d
        (o.spatialInv (1 / getDeterminant g3d) g3d)
        ((c2pB o true g3d fb c).2) (c2pExtract o g3d c)).1.error
        ≠ PrimError.SUCCESS) :
    consToPrimCell o solve excise mask dexcise pexcise true g3d fb c
      = ({ c with fofc := true }, 1) := by
  simp only [consToPrimCell]
  rw [if_pos ⟨herr, trivial⟩]
  simp [c2pB]

/-- Witness for C2: a concrete failing solve on a non-excised cell in
`floors_only` mode flags the cell and counts one failure, leaving the rest
of the cell untouched. -/
theorem consToPrimCell_floorsOnly_failure_witness :
    consToPrimCell oW solveFail false false 11 13 true gId fbW cellW
      = ({ cellW with fofc := true }, 1) :=
  consToPrimCell_floorsOnly_failure oW solveFail false false 11 13 gId fbW cellW
    (Or.inl rfl) (by decide)

/-- Claim C7: a `floors_only` call leaves the policy's floor-failure flags
with the values they had before the call — the sequential driver saves
them, sets both to true for the parallel pass, and restores them afterwards;
the per-cell kernel body neither receives nor returns them. -/
theorem consToPrimDriver_restores_flags (o : PSOracle) (solve : SolveFn)
    (excise : Bool) (dexcise pexcise : ℚ) (flags : EosFloorFlags)
    (nfofc : ℕ) (jobs : List CellJob) :
    (consToPrimDriver o solve excise dexcise pexcise true flags nfofc jobs).1 = flags ∧
    c2pFlagsDuringPass true flags
      = { primFloorFailure := true, consFloorFailure := true } := by
  exact ⟨rfl, rfl⟩

/-- Claim C9: in the incremental x2/x3 sweeps, for every sweep iteration
after the first the Riemann solver consumes as its left interface state the
state reconstructed during the previous iteration, held in the scratch
buffer selected by the parity of the sweep index — so the (left, right)
pair it sees at every interface is exactly what a naive scheme that
reconstructs both sides of every interface would feed it. -/
theorem sweepSolverInput_eq_naive {α : Type} (recon : ℤ → α × α) (jsm1 : ℤ)
    (init : α × α) (n : ℕ) (hn : 1 ≤ n) :
    sweepSolverInput recon jsm1 init n = naiveSolverInput recon (jsm1 + n) := by
  obtain ⟨m, rfl⟩ : ∃ m, n = m + 1 := ⟨n - 1, by omega⟩
  refine Prod.ext ?_ ?_
  · simp only [sweepSolverInput, sweepState, naiveSolverInput, sweepWl, sweepWrite]
    have hidx : jsm1 + ((m + 1 : ℕ) : ℤ) - 1 = jsm1 + (m : ℤ) := by push_cast; ring
    split_ifs with h1 h2 h2
    · exfalso; omega
    · rw [hidx]
    · rw [hidx]
    · exfalso; omega
  · simp only [sweepSolverInput, naiveSolverInput]

/-- Witness for C9: a concrete sweep starting at index 5, checked at the
third iteration. -/
theorem sweepSolverInput_eq_naive_witness :
    (1 : ℕ) ≤ 3 ∧
    sweepSolverInput (fun j : ℤ => (j, j + 100)) 5 (0, 0) 3
      = naiveSolverInput (fun j : ℤ => (j, j + 100)) (5 + (3 : ℕ)) :=
  ⟨by norm_num,
   sweepSolverInput_eq_naive (fun j : ℤ => (j, j + 100)) 5 (0, 0) 3 (by norm_num)⟩

/-- Counterexample to claim C5 as stated: `GetGRSoundSpeeds` does terminate
the process during normal operation — at a per-cell state with zero
velocity, sound speed 1/2 and inverse-metric component gii = -1 the
characteristic-speed discriminant is negative, its square root is
non-finite, and the routine calls `exit(EXIT_FAILURE)` (modelled `none`). -/
theorem gRSoundSpeeds_aborts :
    gRSoundSpeeds id (1/2) pZero gId (fun _ => 0) 1 (-1) 0 = none ∧
    soundSpeedDis id (1/2) pZero gId (-1) 0 = -(1/4) := by
  constructor
  · norm_num [gRSoundSpeeds, soundSpeedDis, squareVector, vecIdx, pZero, gId]
  · norm_num [soundSpeedDis, squareVector, vecIdx, pZero, gId]

/-- Claim C5 (amended): configuration-time errors (unknown equation of
state in the `Hydro` constructor) abort the process, and per-cell solver
failures in `ConsToPrim` are recovered by flooring or FOFC flagging; but
`GetGRSoundSpeeds` aborts the process exactly when its characteristic-speed
discriminant is negative (non-finite square root), so one per-cell runtime
condition does terminate the process. -/
theorem gRSoundSpeeds_abort_iff :
    (∀ (sqrtO : ℚ → ℚ) (cs : ℚ) (p : PrimPt) (g3d : Metric3)
       (beta_u : Fin 3 → ℚ) (alpha gii : ℚ) (index : Fin 3),
        gRSoundSpeeds sqrtO cs p g3d beta_u alpha gii index = none ↔
          soundSpeedDis sqrtO cs p g3d gii index < 0) ∧
    hydroEosNhydro "adiabatic" = some 5 ∧
    hydroEosNhydro "isothermal" = some 4 ∧
    (∀ s : String, s ≠ "adiabatic" → s ≠ "isothermal" → hydroEosNhydro s = none) := by
  refine ⟨fun sqrtO cs p g3d beta_u alpha gii index => ?_, rfl, rfl, fun s h1 h2 => ?_⟩
  · simp only [gRSoundSpeeds]
    split_ifs with h
    · simpa using h
    · simpa using h
  · simp [hydroEosNhydro, h1, h2]

/-- Witness for the amended C5: a concrete unsupported equation-of-state
string is rejected at configuration time. -/
theorem gRSoundSpeeds_abort_iff_witness :
    ("tabulated" : String) ≠ "adiabatic" ∧ ("tabulated" : String) ≠ "isothermal" ∧
    hydroEosNhydro "tabulated" = none :=
  ⟨by decide, by decide,
   gRSoundSpeeds_abort_iff.2.2.2 "tabulated" (by decide) (by decide)⟩

/-- Claim C10: `ConsToPrim` with `floors_only = true` only reads the
cell-centered field and leaves it unchanged, using the stored (undensitized)
values in the solve; with `floors_only = false` it first overwrites each
cell-centered component with the arithmetic mean of the two adjacent
face-centered values and the solve consumes exactly that derived value,
undensitized — the root-finder is consulted only at that field value. -/
theorem consToPrimCell_bcc_usage (o : PSOracle) (g3d : Metric3) (fb : FaceB)
    (c : Cell) :
    (c2pB o true g3d fb c).1 = (c.bccX, c.bccY, c.bccZ) ∧
    (c2pB o true g3d fb c).2 =
      (c.bccX * (1 / o.sqrt (getDeterminant g3d)),
       c.bccY * (1 / o.sqrt (getDeterminant g3d)),
       c.bccZ * (1 / o.sqrt (getDeterminant g3d))) ∧
    (c2pB o false g3d fb c).1 =
      ((1/2 : ℚ) * (fb.x1l + fb.x1r), (1/2 : ℚ) * (fb.x2l + fb.x2r),
       (1/2 : ℚ) * (fb.x3l + fb.x3r)) ∧
    (c2pB o false g3d fb c).2 =
      ((1/2 : ℚ) * (fb.x1l + fb.x1r) * (1 / o.sqrt (getDeterminant g3d)),
       (1/2 : ℚ) * (fb.x2l + fb.x2r) * (1 / o.sqrt (getDeterminant g3d)),
       (1/2 : ℚ) * (fb.x3l + fb.x3r) * (1 / o.sqrt (getDeterminant g3d))) ∧
    (∀ (solve : SolveFn) (excise mask : Bool) (dexcise pexcise : ℚ),
      ((consToPrimCell o solve excise mask dexcise pexcise true g3d fb c).1.bccX = c.bccX ∧
       (consToPrimCell o solve excise mask dexcise pexcise true g3d fb c).1.bccY = c.bccY ∧
       (consToPrimCell o solve excise mask dexcise pexcise true g3d fb c).1.bccZ = c.bccZ) ∧
      ((consToPrimCell o solve excise mask dexcise pexcise false g3d fb c).1.bccX
          = (1/2 : ℚ) * (fb.x1l + fb.x1r) ∧
       (consToPrimCell o solve excise mask dexcise pexcise false g3d fb c).1.bccY
          = (1/2 : ℚ) * (fb.x2l + fb.x2r) ∧
       (consToPrimCell o solve excise mask dexcise pexcise false g3d fb c).1.bccZ
          = (1/2 : ℚ) * (fb.x3l + fb.x3r))) ∧
    (∀ (s₁ s₂ : SolveFn) (excise mask : Bool) (dexcise pexcise : ℚ) (floorsOnly : Bool),
      s₁ (c2pExtract o g3d c) ((c2pB o floorsOnly g3d fb c).2) g3d
          (o.spatialInv (1 / getDeterminant g3d) g3d)
        = s₂ (c2pExtract o g3d c) ((c2pB o floorsOnly g3d fb c).2) g3d
          (o.spatialInv (1 / getDeterminant g3d) g3d) →
      consToPrimCell o s₁ excise mask dexcise pexcise floorsOnly g3d fb c
        = consToPrimCell o s₂ excise mask dexcise pexcise floorsOnly g3d fb c) := by
  refine ⟨rfl, rfl, rfl, rfl, fun solve excise mask dexcise pexcise => ?_, ?_⟩
  · refine ⟨⟨?_, ?_, ?_⟩, ⟨?_, ?_, ?_⟩⟩ <;>
      (simp only [consToPrimCell]; split <;> (try split) <;> simp [c2pB])
  · intro s₁ s₂ excise mask dexcise pexcise floorsOnly h
    cases excise
    · simp only [consToPrimCell]
      rw [c2pSolve_not_excised o s₁ false mask dexcise pexcise g3d
            (o.spatialInv (1 / getDeterminant g3d) g3d)
            ((c2pB o floorsOnly g3d fb c).2) (c2pExtract o g3d c) (Or.inl rfl),
          c2pSolve_not_excised o s₂ false mask dexcise pexcise g3d
            (o.spatialInv (1 / getDeterminant g3d) g3d)
            ((c2pB o floorsOnly g3d fb c).2) (c2pExtract o g3d c) (Or.inl rfl), h]
    · cases mask
      · simp only [consToPrimCell]
        rw [c2pSolve_not_excised o s₁ true false dexcise pexcise g3d
              (o.spatialInv (1 / getDeterminant g3d) g3d)
              ((c2pB o floorsOnly g3d fb c).2) (c2pExtract o g3d c) (Or.inr rfl),
            c2pSolve_not_excised o s₂ true false dexcise pexcise g3d
              (o.spatialInv (1 / getDeterminant g3d) g3d)
              ((c2pB o floorsOnly g3d fb c).2) (c2pExtract o g3d c) (Or.inr rfl), h]
      · rfl

/-- Witness for C10: on a concrete cell, the `floors_only` pass reads the
stored field (1, 1, 1) unchanged, and a root-finder agreeing with `solveOk`
only at the derived face-averaged field value (3, 7, 11) makes `ConsToPrim`
indistinguishable from `solveOk`. -/
theorem consToPrimCell_bcc_usage_witness :
    (c2pB oW true gId fbW cellW).1 = (1, 1, 1) ∧
    consToPrimCell oW solveOk false false 0 0 false gId fbW cellW
      = consToPrimCell oW solveOkAlt false false 0 0 false gId fbW cellW :=
  have h := consToPrimCell_bcc_usage oW gId fbW cellW
  ⟨by rw [h.1]; rfl, h.2.2.2.2.2 solveOk solveOkAlt false false 0 0 false (by
      norm_num [solveOkAlt, solveOk, c2pB, getDeterminant, oW, gId, fbW, cellW])⟩

/-- Counterexample to claim C8 as stated: for a metric with determinant -1
the conversion does not reject the input — it proceeds and uses the square
root of the determinant, so the written conserved density follows whatever
value the square-root routine returns (1 with one oracle, 2 with another). -/
theorem consToPrimCell_nonpositive_det_not_rejected :
    getDeterminant gNeg = -1 ∧
    (consToPrimCell oW solveAdj false false 0 0 false gNeg fbW cellW).1.consD = 1 ∧
    (consToPrimCell oW2 solveAdj false false 0 0 false gNeg fbW cellW).1.consD = 2 := by
  refine ⟨?_, ?_, ?_⟩ <;>
    norm_num [consToPrimCell, c2pSolve, c2pExtract, c2pB, getDeterminant,
      oW, oW2, solveAdj, gNeg, fbW, cellW]

/-- Claim C8 (amended): neither `ConsToPrim` nor `PrimToCons` checks the
sign of the spatial metric determinant; even when it is not strictly
positive both proceed, undensitizing the conserved input and densitizing
the conserved output with the square root of that determinant (in IEEE
arithmetic this yields NaNs, which `PrimToCons` reports through its
conserved-NaN check but still writes). -/
theorem c2p_nonpositive_det_proceeds (o : PSOracle) (g3d : Metric3) (c : Cell)
    (_hdet : getDeterminant g3d ≤ 0) :
    (c2pExtract o g3d c).dn = c.consD * (1 / o.sqrt (getDeterminant g3d)) ∧
    (primToConsCell o g3d c).consD
      = (o.primToCon ((o.applyPrimitiveFloor
            { rh := c.primD / o.mb, vx := c.primVx, vy := c.primVy, vz := c.primVz,
              pr := c.primP,
              tm := o.getTemperatureFromP (c.primD / o.mb) c.primP c.primY,
              yf := c.primY }).2)
          (c.bccX / o.sqrt (getDeterminant g3d), c.bccY / o.sqrt (getDeterminant g3d),
           c.bccZ / o.sqrt (getDeterminant g3d)) g3d).dn
        * o.sqrt (getDeterminant g3d) := by
  constructor
  · rfl
  · simp only [primToConsCell]
    split <;> rfl

/-- Witness for the amended C8: the concrete metric of determinant -1 is
still undensitized by the oracle square root. -/
theorem c2p_nonpositive_det_proceeds_witness :
    getDeterminant gNeg ≤ 0 ∧
    (c2pExtract oW gNeg cellW).dn = cellW.consD * (1 / oW.sqrt (getDeterminant gNeg)) :=
  ⟨by norm_num [getDeterminant, gNeg],
   (c2p_nonpositive_det_proceeds oW gNeg cellW (by norm_num [getDeterminant, gNeg])).1⟩

/-- Claim C4 at the failing input: after a successful non-excised solve the
recovered density and pressure are copied into the primitive array, but the
recovered passive-scalar concentration (42) is not — the copy-back loop
body is the effect-free expression `prim(m, nhyd+n, k, j, i);`, so the
stored scalar (7) survives. -/
theorem consToPrimCell_scalar_copyback_missing :
    (consToPrimCell oW solveOk false false 0 0 false gId fbW cellW).1.primY = [7] ∧
    (solveOk (c2pExtract oW gId cellW) ((c2pB oW false gId fbW cellW).2) gId
        (oW.spatialInv (1 / getDeterminant gId) gId)).2.1.yf = [42] ∧
    (consToPrimCell oW solveOk false false 0 0 false gId fbW cellW).1.primD = 2 ∧
    (consToPrimCell oW solveOk false false 0 0 false gId fbW cellW).1.primP = 3 := by
  refine ⟨?_, ?_, ?_, ?_⟩ <;>
    norm_num [consToPrimCell, c2pSolve, c2pExtract, c2pB, getDeterminant,
      oW, solveOk, gId, fbW, cellW]

end AthenaK
